import Mathlib

/-!
# mw.echo.ui.SubGroupListWidget

A shallow embedding of `modules/ui/mw.echo.ui.SubGroupListWidget.js`: the widget
that renders the notifications of one source inside a cross-wiki group.

Conventions of the embedding

* JavaScript numbers that the code only uses as integers (notification ids,
  numeric timestamps) are `Int`; the arithmetic of the sorting callback is exact
  on them.
* An argument that may be left out (`undefined`) is an `Option`; `none` is the
  omitted argument.
* A method that mutates `this` is a function from the widget state to the new
  widget state; a method that can throw returns `Except JsError _`.
* Calls into the controller are recorded in the controller's call log.
-/

namespace Echo

/-! ## Data model -/

/-- A JavaScript exception. -/
inductive JsError where
  | typeError (msg : String)
  deriving DecidableEq, Repr

/-- The notification item model, as far as the widget reads it: `getId()`,
`getTimestamp()`, `isRead()`, `isBundled()`. -/
structure NotificationItem where
  id : Int
  timestamp : Int
  read : Bool
  bundled : Bool
  deriving DecidableEq, Repr

namespace NotificationItem

def getId (item : NotificationItem) : Int := item.id

def getTimestamp (item : NotificationItem) : Int := item.timestamp

def isRead (item : NotificationItem) : Bool := item.read

def isBundled (item : NotificationItem) : Bool := item.bundled

end NotificationItem

/-- Modelled from the spec: the list model of one source (SourceListModel), whose
class lives in another module. It holds the attributes behind the
pure accessors `getName()`, `getSource()`, `getSourceURL()`, `getTitle()`,
`getTimestamp()`, `isForeign()` and the items returned by `getItems()`, in the
storage order of the model. -/
structure ListModel where
  name : String
  source : String
  sourceURL : Option String
  title : Option String
  timestamp : Int
  foreign : Bool
  items : List NotificationItem
  deriving DecidableEq, Repr

namespace ListModel

def getName (m : ListModel) : String := m.name

def getSource (m : ListModel) : String := m.source

def getSourceURL (m : ListModel) : Option String := m.sourceURL

def getTitle (m : ListModel) : Option String := m.title

def getTimestamp (m : ListModel) : Int := m.timestamp

def isForeign (m : ListModel) : Bool := m.foreign

def getItems (m : ListModel) : List NotificationItem := m.items

/-- Modelled from the spec: ids of all the items held by the model. -/
def getAllItemIds (m : ListModel) : List Int := m.items.map NotificationItem.getId

end ListModel

/-- Modelled from the spec: the controller is an external collaborator that
receives `markEntireListModelRead(name)` as a fire-and-forget request. The
embedding records the requests, oldest first. -/
structure Controller where
  markEntireListModelReadCalls : List String
  deriving DecidableEq, Repr

/-- Record one call `controller.markEntireListModelRead( modelName )`. -/
def Controller.markEntireListModelRead (c : Controller) (modelName : String) : Controller :=
  { c with markEntireListModelReadCalls := c.markEntireListModelReadCalls ++ [modelName] }

/-- The configuration object: `showTitle` and `showMarkAllRead`, each of which
may be left out. -/
structure Config where
  showTitle : Option Bool
  showMarkAllRead : Option Bool
  deriving DecidableEq, Repr

/-- JavaScript `!!x` for an optional boolean: a missing value is falsy. -/
def truthyBool : Option Bool → Bool
  | some b => b
  | none => false

/-- JavaScript truthiness of an optional string: missing and empty are falsy. -/
def truthyString : Option String → Bool
  | some s => !s.isEmpty
  | none => false

/-! ## OOjs UI elements

`OO.ui.Element.prototype.toggle( show )` of the OOjs UI library: with `show`
omitted the visibility flips, otherwise it becomes `show`. The embedding also
counts the invocations of `toggle`. -/

/-- The visibility state of an OOjs UI element. -/
structure UiElement where
  visible : Bool
  toggleCalls : Nat
  deriving DecidableEq, Repr

/-- A freshly created OOjs UI element is visible. -/
def UiElement.create : UiElement := { visible := true, toggleCalls := 0 }

def UiElement.toggle (e : UiElement) (arg : Option Bool) : UiElement :=
  let s := match arg with
    | none => !e.visible
    | some b => b
  { visible := if s != e.visible then s else e.visible, toggleCalls := e.toggleCalls + 1 }

def UiElement.isVisible (e : UiElement) : Bool := e.visible

/-- The title of the group: an `OO.ui.ButtonWidget` with an `href` when the model
has a source URL, an `OO.ui.LabelWidget` otherwise. -/
structure TitleWidget where
  isButton : Bool
  href : Option String
  label : Option String
  element : UiElement
  deriving DecidableEq, Repr

def TitleWidget.setLabel (t : TitleWidget) (l : String) : TitleWidget :=
  { t with label := some l }

def TitleWidget.toggle (t : TitleWidget) (arg : Option Bool) : TitleWidget :=
  { t with element := t.element.toggle arg }

/-! ## String.prototype.replace with a string pattern -/

def startsWithChars : List Char → List Char → Bool
  | [], _ => true
  | _ :: _, [] => false
  | p :: ps, c :: cs => p == c && startsWithChars ps cs

/-- Replace the first occurrence of `pat` (non-empty) by `rep`. -/
def replaceFirstChars (pat rep : List Char) : List Char → List Char
  | [] => []
  | c :: cs =>
    if startsWithChars pat (c :: cs) then rep ++ (c :: cs).drop pat.length
    else c :: replaceFirstChars pat rep cs

def replaceFirst (s pat rep : String) : String :=
  String.mk (replaceFirstChars pat.data rep.data s.data)

/-! ## Item widgets and the sorted list widget -/

/-- Modelled from the spec: the item widget
(`mw.echo.ui.SingleNotificationItemWidget`, defined in another module)
built from the controller, an item model and the `bundle` option. It is keyed by
the id of its item and reports the timestamp of its item. -/
structure SingleNotificationItemWidget where
  model : NotificationItem
  bundle : Bool
  deriving DecidableEq, Repr

namespace SingleNotificationItemWidget

def create (item : NotificationItem) (bundle : Bool) : SingleNotificationItemWidget :=
  { model := item, bundle := bundle }

def getId (w : SingleNotificationItemWidget) : Int := w.model.getId

def getTimestamp (w : SingleNotificationItemWidget) : Int := w.model.getTimestamp

end SingleNotificationItemWidget

/-- The sorting callback handed to the sorted list widget (lines 34-44):
`diff = Number( b.getTimestamp() ) - Number( a.getTimestamp() )`, returned when
it is not zero, else `b.getId() - a.getId()`. -/
def sortingCallback (a b : SingleNotificationItemWidget) : Int :=
  let diff := b.getTimestamp - a.getTimestamp
  if diff ≠ 0 then diff else b.getId - a.getId

/-- Modelled from the spec: the ordered item collection behind
`mw.echo.ui.SortedListWidget` (defined in another module), "a keyed,
comparator-sorted collection supporting insert, remove, lookup-by-key, and full
replace". The rendered widgets, in display order. -/
structure SortedListWidget where
  items : List SingleNotificationItemWidget
  deriving DecidableEq, Repr

/-- Modelled from the spec: insertion of one element into a comparator-sorted
collection. The element goes before the first element it sorts before; an
element that compares equal to it ("identical for ordering purposes") is
replaced by it. -/
def insertSorted {α : Type} (cmp : α → α → Int) (x : α) : List α → List α
  | [] => [x]
  | y :: ys =>
    if cmp x y < 0 then x :: y :: ys
    else if cmp x y = 0 then x :: ys
    else y :: insertSorted cmp x ys

namespace SortedListWidget

/-- Modelled from the spec: a new, empty sorted list widget. -/
def create : SortedListWidget := { items := [] }

def getItems (l : SortedListWidget) : List SingleNotificationItemWidget := l.items

/-- Modelled from the spec: full replace, first half: remove every item. -/
def clearItems (_l : SortedListWidget) : SortedListWidget := { items := [] }

/-- Modelled from the spec: insert the given widgets one after the other, each at
its place in the order of the comparator. -/
def addItems (cmp : SingleNotificationItemWidget → SingleNotificationItemWidget → Int)
    (l : SortedListWidget) (ws : List SingleNotificationItemWidget) : SortedListWidget :=
  { items := ws.foldl (fun acc w => insertSorted cmp w acc) l.items }

/-- Modelled from the spec: lookup by key; `none` when no rendered widget has the
id. -/
def getItemFromId (l : SortedListWidget) (id : Int) : Option SingleNotificationItemWidget :=
  l.items.find? (fun w => w.getId == id)

/-- Modelled from the spec: remove the given widgets; an entry that is not a
rendered widget (a failed lookup, or a widget that is not in the list) is
skipped. Widgets are compared by value, which is object identity in a list
keyed by id. -/
def removeItems (l : SortedListWidget) (ws : List (Option SingleNotificationItemWidget)) :
    SortedListWidget :=
  { items := ws.foldl (fun acc o =>
      match o with
      | some w => acc.erase w
      | none => acc) l.items }

end SortedListWidget

/-! ## The sub group list widget -/

/-- The state of a `mw.echo.ui.SubGroupListWidget`. -/
structure SubGroupListWidget where
  controller : Option Controller
  model : ListModel
  data : String
  showTitle : Bool
  showMarkAllRead : Bool
  listWidget : SortedListWidget
  title : TitleWidget
  markAllReadButton : UiElement
  deriving DecidableEq, Repr

namespace SubGroupListWidget

/-- Lines 137-144: `items.some( isUnread )` over `this.model.getItems()`. -/
def hasUnread (w : SubGroupListWidget) : Bool :=
  let isUnread := fun (item : NotificationItem) => !item.isRead
  let items := w.model.getItems
  items.any isUnread

/-- Lines 121-123: `this.markAllReadButton.toggle( this.hasUnread() )`. -/
def toggleMarkAllReadButton (w : SubGroupListWidget) : SubGroupListWidget :=
  { w with markAllReadButton := w.markAllReadButton.toggle (some w.hasUnread) }

/-- Lines 128-130: `this.controller.markEntireListModelRead( this.model.getName() )`.
Calling a method of a missing controller throws a `TypeError`. -/
def onMarkAllReadButtonClick (w : SubGroupListWidget) : Except JsError SubGroupListWidget :=
  match w.controller with
  | none => .error (.typeError "this.controller is undefined")
  | some c => .ok { w with controller := some (c.markEntireListModelRead w.model.getName) }

/-- Lines 152-175: `items = items || this.model.getItems()`, one item widget per
item, then `clearItems()` and `addItems( itemWidgets )` on the list widget. An
array, also the empty one, is truthy. -/
def resetItemsFromModel (w : SubGroupListWidget) (items : Option (List NotificationItem)) :
    SubGroupListWidget :=
  let items := match items with
    | some l => l
    | none => w.model.getItems
  let itemWidgets := items.map (fun item => SingleNotificationItemWidget.create item item.isBundled)
  { w with listWidget := (w.listWidget.clearItems).addItems sortingCallback itemWidgets }

/-- Lines 183-191: look every item up by its id, then `removeItems` of what the
lookups gave. -/
def onModelDiscardItems (w : SubGroupListWidget) (items : List NotificationItem) :
    SubGroupListWidget :=
  let itemWidgets := items.map (fun item => w.listWidget.getItemFromId item.getId)
  { w with listWidget := w.listWidget.removeItems itemWidgets }

def getListWidget (w : SubGroupListWidget) : SortedListWidget := w.listWidget

def getTimestamp (w : SubGroupListWidget) : Int := w.model.getTimestamp

/-- Lines 217-224: `show = show !== undefined ? show : !this.showTitle`, and only
when `this.showTitle !== show` the flag is stored and the title toggled. -/
def toggleTitle (w : SubGroupListWidget) (arg : Option Bool) : SubGroupListWidget :=
  let s := match arg with
    | some b => b
    | none => !w.showTitle
  if w.showTitle ≠ s then
    { w with showTitle := s, title := w.title.toggle (some s) }
  else w

def getSource (w : SubGroupListWidget) : String := w.model.getSource

def getAllItemIDs (w : SubGroupListWidget) : List Int := w.model.getAllItemIds

def isForeign (w : SubGroupListWidget) : Bool := w.model.isForeign

def getId (w : SubGroupListWidget) : String := w.model.getName

/-- Lines 15-109, the constructor. `listModel` missing makes `this.getSource()`
in the call of the parent constructor (which stores it as `data`) throw; nothing
else in the constructor can throw, and the controller is only stored. -/
def create (controller : Option Controller) (listModel : Option ListModel)
    (config : Option Config) : Except JsError SubGroupListWidget :=
  let config := match config with
    | some c => c
    | none => { showTitle := none, showMarkAllRead := none }
  match listModel with
  | none => .error (.typeError "this.model is undefined")
  | some model =>
    let showTitle := truthyBool config.showTitle
    let showMarkAllRead := truthyBool config.showMarkAllRead
    let listWidget := SortedListWidget.create
    let sourceURL : Option String :=
      if truthyString model.getSourceURL then
        model.getSourceURL.map (fun u => replaceFirst u "$1" "Special:Notifications")
      else none
    let title : TitleWidget :=
      if truthyString sourceURL then
        { isButton := true, href := sourceURL, label := none, element := UiElement.create }
      else
        { isButton := false, href := none, label := none, element := UiElement.create }
    let title := match model.getTitle with
      | some t => if truthyString (some t) then title.setLabel t else title
      | none => title
    let title := title.toggle (some showTitle)
    let markAllReadButton := UiElement.create
    let w : SubGroupListWidget :=
      { controller := controller
        model := model
        data := model.getSource
        showTitle := showTitle
        showMarkAllRead := showMarkAllRead
        listWidget := listWidget
        title := title
        markAllReadButton := markAllReadButton }
    .ok w.toggleMarkAllReadButton

/-- The events the widget is connected to (lines 78-92). -/
inductive Event where
  | discard (items : List NotificationItem)
  | update (items : Option (List NotificationItem))
  | itemUpdate
  | click
  deriving DecidableEq, Repr

/-- Dispatch of an event to the handler it is connected to. -/
def handle (w : SubGroupListWidget) : Event → Except JsError SubGroupListWidget
  | .discard items => .ok (w.onModelDiscardItems items)
  | .update items => .ok (w.resetItemsFromModel items)
  | .itemUpdate => .ok w.toggleMarkAllReadButton
  | .click => w.onMarkAllReadButtonClick

end SubGroupListWidget

/-! ## Concrete states used by the examples -/

/-- The scenario of the specification: two unread items with the same timestamp
and an older, read one. -/
def scenarioItems : List NotificationItem :=
  [ { id := 5, timestamp := 100, read := false, bundled := false },
    { id := 7, timestamp := 100, read := false, bundled := false },
    { id := 2, timestamp := 50, read := true, bundled := false } ]

/-- The six orders in which the three scenario items can be handed over. -/
def scenarioOrders : List (List NotificationItem) :=
  let a : NotificationItem := { id := 5, timestamp := 100, read := false, bundled := false }
  let b : NotificationItem := { id := 7, timestamp := 100, read := false, bundled := false }
  let c : NotificationItem := { id := 2, timestamp := 50, read := true, bundled := false }
  [[a, b, c], [a, c, b], [b, a, c], [b, c, a], [c, a, b], [c, b, a]]

/-- The scenario after ids 7 and 5 were marked read. -/
def scenarioItemsRead : List NotificationItem :=
  [ { id := 5, timestamp := 100, read := true, bundled := false },
    { id := 7, timestamp := 100, read := true, bundled := false },
    { id := 2, timestamp := 50, read := true, bundled := false } ]

/-- A local list model whose symbolic name is a date and whose source is
`local`. -/
def datedModel (items : List NotificationItem) : ListModel :=
  { name := "20160101", source := "local", sourceURL := none, title := some "1 January",
    timestamp := 100, foreign := false, items := items }

/-- A controller that has received no request yet. -/
def freshController : Controller := { markEntireListModelReadCalls := [] }

/-- The item widgets of a list of items, as `resetItemsFromModel` builds them. -/
def widgetsOf (items : List NotificationItem) : List SingleNotificationItemWidget :=
  items.map (fun item => SingleNotificationItemWidget.create item item.isBundled)

/-- Three rendered widgets with ids 3, 2, 1 (timestamps 30, 20, 10). -/
def threeItems : List NotificationItem :=
  [ { id := 1, timestamp := 10, read := false, bundled := false },
    { id := 2, timestamp := 20, read := false, bundled := false },
    { id := 3, timestamp := 30, read := false, bundled := false } ]

/-- A widget state given directly by its fields. -/
def widgetWith (c : Option Controller) (m : ListModel) (rendered : List SingleNotificationItemWidget) :
    SubGroupListWidget :=
  { controller := c, model := m, data := m.getSource, showTitle := false,
    showMarkAllRead := false,
    listWidget := { items := rendered },
    title := { isButton := false, href := none, label := none, element := UiElement.create },
    markAllReadButton := UiElement.create }

/-- The item with id 2 of `threeItems`. -/
def itemTwo : NotificationItem := { id := 2, timestamp := 20, read := false, bundled := false }

/-- An item that is in no list of the examples. -/
def itemNine : NotificationItem := { id := 9, timestamp := 90, read := false, bundled := false }

/-- A configuration that only sets `showMarkAllRead`. -/
def configMarkAllRead (b : Bool) : Config := { showTitle := none, showMarkAllRead := some b }

/-- The strict display order: `a` is rendered before `b`. -/
def Before (a b : SingleNotificationItemWidget) : Prop := sortingCallback a b < 0

/-! ## Lemmas on the sorting callback and the sorted insertion -/

theorem sortingCallback_eq (a b : SingleNotificationItemWidget) :
    sortingCallback a b =
      if b.model.timestamp - a.model.timestamp ≠ 0 then b.model.timestamp - a.model.timestamp
      else b.model.id - a.model.id := rfl

theorem sortingCallback_neg_iff (a b : SingleNotificationItemWidget) :
    sortingCallback a b < 0 ↔
      (b.model.timestamp < a.model.timestamp ∨
        (a.model.timestamp = b.model.timestamp ∧ b.model.id < a.model.id)) := by
  rw [sortingCallback_eq]; split_ifs <;> omega

theorem sortingCallback_zero_iff (a b : SingleNotificationItemWidget) :
    sortingCallback a b = 0 ↔
      (a.model.timestamp = b.model.timestamp ∧ a.model.id = b.model.id) := by
  rw [sortingCallback_eq]; split_ifs <;> omega

theorem sortingCallback_pos_iff (a b : SingleNotificationItemWidget) :
    0 < sortingCallback a b ↔
      (a.model.timestamp < b.model.timestamp ∨
        (a.model.timestamp = b.model.timestamp ∧ a.model.id < b.model.id)) := by
  rw [sortingCallback_eq]; split_ifs <;> omega

theorem mem_insertSorted {α : Type} (cmp : α → α → Int) (x z : α) (l : List α)
    (h : z ∈ insertSorted cmp x l) : z = x ∨ z ∈ l := by
  induction l with
  | nil => simpa [insertSorted] using h
  | cons y ys ih =>
    simp only [insertSorted] at h
    split_ifs at h with h1 h2
    · simpa using h
    · rcases List.mem_cons.1 h with h | h
      · exact Or.inl h
      · exact Or.inr (List.mem_cons_of_mem _ h)
    · rcases List.mem_cons.1 h with h | h
      · exact Or.inr (by simp [h])
      · rcases ih h with h | h
        · exact Or.inl h
        · exact Or.inr (List.mem_cons_of_mem _ h)

theorem insertSorted_perm {α : Type} (cmp : α → α → Int) (x : α) (l : List α)
    (h : ∀ y ∈ l, cmp x y ≠ 0) : (insertSorted cmp x l).Perm (x :: l) := by
  induction l with
  | nil => simp [insertSorted]
  | cons y ys ih =>
    simp only [insertSorted]
    split_ifs with h1 h2
    · exact List.Perm.refl _
    · exact absurd h2 (h y (by simp))
    · exact ((ih (fun z hz => h z (List.mem_cons_of_mem _ hz))).cons y).trans (List.Perm.swap x y ys)

theorem insertSorted_sorted (x : SingleNotificationItemWidget)
    (l : List SingleNotificationItemWidget) (h : l.Pairwise Before) :
    (insertSorted sortingCallback x l).Pairwise Before := by
  induction l with
  | nil => simp [insertSorted]
  | cons y ys ih =>
    have hy := (List.pairwise_cons.1 h).1
    have hys := (List.pairwise_cons.1 h).2
    simp only [insertSorted]
    split_ifs with h1 h2
    · refine List.pairwise_cons.2 ⟨?_, h⟩
      intro z hz
      rcases List.mem_cons.1 hz with hz | hz
      · subst hz; exact h1
      · have := hy z hz
        simp only [Before, sortingCallback_neg_iff] at this h1 ⊢
        omega
    · refine List.pairwise_cons.2 ⟨?_, hys⟩
      intro z hz
      have := hy z hz
      simp only [Before, sortingCallback_neg_iff, sortingCallback_zero_iff] at this h2 ⊢
      omega
    · refine List.pairwise_cons.2 ⟨?_, ih hys⟩
      intro z hz
      rcases mem_insertSorted _ _ _ _ hz with hz | hz
      · subst hz
        simp only [Before, sortingCallback_neg_iff, sortingCallback_zero_iff] at h1 h2 ⊢
        omega
      · exact hy z hz

theorem foldl_insertSorted_sorted (ws acc : List SingleNotificationItemWidget)
    (h : acc.Pairwise Before) :
    (ws.foldl (fun acc w => insertSorted sortingCallback w acc) acc).Pairwise Before := by
  induction ws generalizing acc with
  | nil => simpa using h
  | cons w ws ih => exact ih _ (insertSorted_sorted w acc h)

theorem foldl_insertSorted_perm (ws acc : List SingleNotificationItemWidget)
    (h : ((ws ++ acc).map SingleNotificationItemWidget.getId).Nodup) :
    (ws.foldl (fun acc w => insertSorted sortingCallback w acc) acc).Perm (ws ++ acc) := by
  induction ws generalizing acc with
  | nil => simp
  | cons w ws ih =>
    have hw : ∀ y ∈ acc, sortingCallback w y ≠ 0 := by
      intro y hy h0
      have hid : w.getId = y.getId := ((sortingCallback_zero_iff w y).1 h0).2
      simp only [List.cons_append, List.map_cons, List.nodup_cons, List.mem_map] at h
      exact h.1 ⟨y, List.mem_append_right _ hy, hid.symm⟩
    have hp := insertSorted_perm sortingCallback w acc hw
    have hnd : ((ws ++ insertSorted sortingCallback w acc).map
        SingleNotificationItemWidget.getId).Nodup := by
      refine (List.Perm.nodup_iff (List.Perm.map _ ?_)).2 h
      exact ((List.Perm.append_left ws hp).trans List.perm_middle)
    refine (ih _ hnd).trans ?_
    exact ((List.Perm.append_left ws hp).trans List.perm_middle)

theorem before_antisymm (a b : SingleNotificationItemWidget) (h1 : Before a b)
    (h2 : Before b a) : a = b := by
  simp only [Before, sortingCallback_neg_iff] at h1 h2
  omega

theorem addItems_order_independent (l₁ l₂ : List SingleNotificationItemWidget)
    (hp : l₁.Perm l₂) (hnd : (l₁.map SingleNotificationItemWidget.getId).Nodup) :
    SortedListWidget.addItems sortingCallback SortedListWidget.create l₁ =
      SortedListWidget.addItems sortingCallback SortedListWidget.create l₂ := by
  have hnd2 : (l₂.map SingleNotificationItemWidget.getId).Nodup :=
    (List.Perm.nodup_iff (List.Perm.map _ hp)).1 hnd
  have p1 := foldl_insertSorted_perm l₁ [] (by simpa using hnd)
  have p2 := foldl_insertSorted_perm l₂ [] (by simpa using hnd2)
  have s1 := foldl_insertSorted_sorted l₁ [] List.Pairwise.nil
  have s2 := foldl_insertSorted_sorted l₂ [] List.Pairwise.nil
  haveI : IsAntisymm SingleNotificationItemWidget Before := ⟨before_antisymm⟩
  have hperm : (l₁.foldl (fun acc w => insertSorted sortingCallback w acc) []).Perm
      (l₂.foldl (fun acc w => insertSorted sortingCallback w acc) []) := by
    simp only [List.append_nil] at p1 p2
    exact p1.trans (hp.trans p2.symm)
  have := List.eq_of_perm_of_sorted hperm s1 s2
  simp only [SortedListWidget.addItems, SortedListWidget.create]
  exact congrArg _ this

/-! ## Lemmas on resetting and discarding -/

theorem mem_ids_insertSorted (x : SingleNotificationItemWidget)
    (l : List SingleNotificationItemWidget) (i : Int) :
    i ∈ (insertSorted sortingCallback x l).map SingleNotificationItemWidget.getId ↔
      i = x.getId ∨ i ∈ l.map SingleNotificationItemWidget.getId := by
  induction l with
  | nil => simp [insertSorted]
  | cons y ys ih =>
    simp only [insertSorted]
    split_ifs with h1 h2
    · simp
    · have hid : x.getId = y.getId := ((sortingCallback_zero_iff x y).1 h2).2
      simp only [List.map_cons, List.mem_cons, ← hid]
      tauto
    · simp only [List.map_cons, List.mem_cons, ih]
      tauto

theorem mem_ids_foldl_insertSorted (ws acc : List SingleNotificationItemWidget) (i : Int) :
    i ∈ (ws.foldl (fun acc w => insertSorted sortingCallback w acc) acc).map
        SingleNotificationItemWidget.getId ↔
      i ∈ ws.map SingleNotificationItemWidget.getId ∨
        i ∈ acc.map SingleNotificationItemWidget.getId := by
  induction ws generalizing acc with
  | nil => simp
  | cons w ws ih =>
    simp only [List.foldl_cons, ih, mem_ids_insertSorted, List.map_cons, List.mem_cons]
    tauto

theorem widgetsOf_ids (items : List NotificationItem) :
    (widgetsOf items).map SingleNotificationItemWidget.getId =
      items.map NotificationItem.getId := by
  simp [widgetsOf, SingleNotificationItemWidget.getId, SingleNotificationItemWidget.create,
    Function.comp_def]

theorem resetItemsFromModel_items (w : SubGroupListWidget) (items : List NotificationItem) :
    (w.resetItemsFromModel (some items)).listWidget.items =
      (widgetsOf items).foldl (fun acc x => insertSorted sortingCallback x acc) [] := rfl

theorem resetItemsFromModel_none (w : SubGroupListWidget) :
    w.resetItemsFromModel none = w.resetItemsFromModel (some w.model.getItems) := rfl

theorem erase_eq_filter_of_nodup_ids (orig acc : List SingleNotificationItemWidget)
    (x : SingleNotificationItemWidget)
    (hnd : (orig.map SingleNotificationItemWidget.getId).Nodup)
    (hsub : acc.Sublist orig) (hx : x ∈ orig) :
    acc.erase x = acc.filter (fun y => y.getId != x.getId) := by
  have hinj : ∀ y ∈ orig, y.getId = x.getId → y = x := fun y hy h =>
    List.inj_on_of_nodup_map hnd hy hx h
  have haccnd : acc.Nodup := (List.Nodup.of_map _ hnd).sublist hsub
  rw [List.Nodup.erase_eq_filter haccnd]
  apply List.filter_congr
  intro y hy
  by_cases h : y = x
  · subst h; simp
  · have : y.getId ≠ x.getId := fun hid => h (hinj y (hsub.subset hy) hid)
    rw [bne_iff_ne.2 h, bne_iff_ne.2 this]

theorem foldl_discard (orig : List SingleNotificationItemWidget)
    (hnd : (orig.map SingleNotificationItemWidget.getId).Nodup)
    (items : List NotificationItem) (acc : List SingleNotificationItemWidget)
    (hsub : acc.Sublist orig) :
    (items.map (fun item => (SortedListWidget.mk orig).getItemFromId item.getId)).foldl
        (fun acc o =>
          match o with
          | some x => acc.erase x
          | none => acc) acc =
      acc.filter (fun y => decide (y.getId ∉ items.map NotificationItem.getId)) := by
  induction items generalizing acc with
  | nil => simp
  | cons it rest ih =>
    simp only [List.map_cons, List.foldl_cons]
    cases hfind : (SortedListWidget.mk orig).getItemFromId it.getId with
    | none =>
      simp only
      rw [ih acc hsub]
      apply List.filter_congr
      intro y hy
      have hne : y.getId ≠ it.getId := by
        intro hid
        simp only [SortedListWidget.getItemFromId, List.find?_eq_none] at hfind
        exact hfind y (hsub.subset hy) (by simpa using hid)
      simp [hne]
    | some x =>
      simp only
      have hxmem : x ∈ orig := List.mem_of_find?_eq_some hfind
      have hxid : x.getId = it.getId := by
        have := List.find?_some hfind
        simpa using this
      rw [erase_eq_filter_of_nodup_ids orig acc x hnd hsub hxmem]
      rw [ih _ ((List.filter_sublist _).trans hsub), List.filter_filter]
      apply List.filter_congr
      intro y _
      by_cases hid : y.getId = it.getId
      · simp [hid, hxid]
      · simp [hid, hxid]

/-! ## The sorting callback -/

/-- C1: the sorting callback is negative exactly when `a` has the greater
timestamp, or the same timestamp and the greater id; positive exactly in the
mirrored case; zero exactly when timestamp and id are both equal. The items
(id 5, ts 100), (id 7, ts 100), (id 2, ts 50) are displayed as 7, 5, 2, in
whatever order they are handed over. -/
theorem sortingCallback_order (a b : SingleNotificationItemWidget) :
    (sortingCallback a b < 0 ↔
      (a.getTimestamp > b.getTimestamp ∨
        (a.getTimestamp = b.getTimestamp ∧ a.getId > b.getId))) ∧
    (sortingCallback a b > 0 ↔
      (b.getTimestamp > a.getTimestamp ∨
        (b.getTimestamp = a.getTimestamp ∧ b.getId > a.getId))) ∧
    (sortingCallback a b = 0 ↔
      (a.getTimestamp = b.getTimestamp ∧ a.getId = b.getId)) ∧
    (∀ l ∈ scenarioOrders,
      ((widgetWith none (datedModel []) []).resetItemsFromModel (some l)).listWidget.items.map
        SingleNotificationItemWidget.getId = [7, 5, 2]) := by
  refine ⟨?_, ?_, ?_, by decide⟩
  · rw [sortingCallback_neg_iff]
    simp only [SingleNotificationItemWidget.getTimestamp, SingleNotificationItemWidget.getId,
      NotificationItem.getTimestamp, NotificationItem.getId, gt_iff_lt]
  · rw [gt_iff_lt, sortingCallback_pos_iff]
    simp only [SingleNotificationItemWidget.getTimestamp, SingleNotificationItemWidget.getId,
      NotificationItem.getTimestamp, NotificationItem.getId]
    omega
  · rw [sortingCallback_zero_iff]
    simp only [SingleNotificationItemWidget.getTimestamp, SingleNotificationItemWidget.getId,
      NotificationItem.getTimestamp, NotificationItem.getId]

/-- C2: the sorting callback is a total order on item widgets: the sign of
`cmp(a,b)` is the opposite of the sign of `cmp(b,a)`, `cmp(a,b) <= 0` and
`cmp(b,c) <= 0` give `cmp(a,c) <= 0`, two widgets with distinct ids never
compare equal, and two item sequences with unique ids that are permutations of
each other are rendered as the same list. -/
theorem sortingCallback_total_order (a b c : SingleNotificationItemWidget)
    (w : SubGroupListWidget) (l₁ l₂ : List NotificationItem) :
    Int.sign (sortingCallback a b) = -Int.sign (sortingCallback b a) ∧
    (sortingCallback a b ≤ 0 → sortingCallback b c ≤ 0 → sortingCallback a c ≤ 0) ∧
    (a.getId ≠ b.getId → sortingCallback a b ≠ 0) ∧
    (l₁.Perm l₂ → (l₁.map NotificationItem.getId).Nodup →
      w.resetItemsFromModel (some l₁) = w.resetItemsFromModel (some l₂)) := by
  refine ⟨?_, ?_, ?_, ?_⟩
  · rcases lt_trichotomy (sortingCallback a b) 0 with h | h | h
    · have h2 : 0 < sortingCallback b a := by
        rw [sortingCallback_pos_iff]; rw [sortingCallback_neg_iff] at h; omega
      rw [Int.sign_eq_neg_one_of_neg h, Int.sign_eq_one_of_pos h2]
    · have h2 : sortingCallback b a = 0 := by
        rw [sortingCallback_zero_iff]; rw [sortingCallback_zero_iff] at h; omega
      rw [h, h2]; rfl
    · have h2 : sortingCallback b a < 0 := by
        rw [sortingCallback_neg_iff]; rw [sortingCallback_pos_iff] at h; omega
      rw [Int.sign_eq_neg_one_of_neg h2, Int.sign_eq_one_of_pos h]; rfl
  · intro h1 h2
    rw [← not_lt, sortingCallback_pos_iff] at h1 h2 ⊢
    omega
  · intro hid h0
    exact hid ((sortingCallback_zero_iff a b).1 h0).2
  · intro hp hnd
    have := addItems_order_independent (widgetsOf l₁) (widgetsOf l₂) (hp.map _)
      (by rw [widgetsOf_ids]; exact hnd)
    simp only [SubGroupListWidget.resetItemsFromModel, SortedListWidget.clearItems]
    simp only [SortedListWidget.create, widgetsOf] at this
    rw [this]

/-- Witness of C1: id 7 sorts before id 5 at the same timestamp. -/
theorem sortingCallback_order_witness :
    sortingCallback ⟨⟨7, 100, false, false⟩, false⟩ ⟨⟨5, 100, false, false⟩, false⟩ < 0 :=
  (sortingCallback_order ⟨⟨7, 100, false, false⟩, false⟩ ⟨⟨5, 100, false, false⟩, false⟩).1.2
    (Or.inr ⟨rfl, by decide⟩)

/-- Witness of C2 on the scenario items, handed over in two different orders. -/
theorem sortingCallback_total_order_witness :
    (sortingCallback ⟨⟨7, 100, false, false⟩, false⟩ ⟨⟨5, 100, false, false⟩, false⟩ ≤ 0 ∧
      sortingCallback ⟨⟨5, 100, false, false⟩, false⟩ ⟨⟨2, 50, true, false⟩, false⟩ ≤ 0 ∧
      sortingCallback ⟨⟨7, 100, false, false⟩, false⟩ ⟨⟨2, 50, true, false⟩, false⟩ ≤ 0) ∧
    sortingCallback ⟨⟨7, 100, false, false⟩, false⟩ ⟨⟨5, 100, false, false⟩, false⟩ ≠ 0 ∧
    (widgetWith none (datedModel []) []).resetItemsFromModel (some scenarioItems) =
      (widgetWith none (datedModel []) []).resetItemsFromModel (some scenarioItems.reverse) :=
  have h := sortingCallback_total_order ⟨⟨7, 100, false, false⟩, false⟩
    ⟨⟨5, 100, false, false⟩, false⟩ ⟨⟨2, 50, true, false⟩, false⟩
    (widgetWith none (datedModel []) []) scenarioItems scenarioItems.reverse
  ⟨⟨by decide, by decide, h.2.1 (by decide) (by decide)⟩, h.2.2.1 (by decide),
    h.2.2.2 (List.reverse_perm _).symm (by decide)⟩

/-! ## Resetting and discarding -/

/-- C3: after `resetItemsFromModel(items)`, for items with unique ids, the ids of
the rendered widgets are exactly the ids of `items`, each once, whatever was
rendered before; with the argument omitted they are exactly the ids of
`model.getItems()`. -/
theorem resetItemsFromModel_ids (w : SubGroupListWidget) (items : List NotificationItem)
    (hnd : (items.map NotificationItem.getId).Nodup) :
    (∀ i : Int,
      i ∈ (w.resetItemsFromModel (some items)).listWidget.items.map
          SingleNotificationItemWidget.getId ↔
        i ∈ items.map NotificationItem.getId) ∧
    ((w.resetItemsFromModel (some items)).listWidget.items.map
        SingleNotificationItemWidget.getId).Perm (items.map NotificationItem.getId) ∧
    (∀ i : Int,
      i ∈ (w.resetItemsFromModel none).listWidget.items.map
          SingleNotificationItemWidget.getId ↔
        i ∈ w.model.getItems.map NotificationItem.getId) := by
  refine ⟨?_, ?_, ?_⟩
  · intro i
    rw [resetItemsFromModel_items, mem_ids_foldl_insertSorted, widgetsOf_ids]
    simp
  · rw [resetItemsFromModel_items, ← widgetsOf_ids]
    have := foldl_insertSorted_perm (widgetsOf items) []
      (by rw [List.append_nil, widgetsOf_ids]; exact hnd)
    rw [List.append_nil] at this
    exact this.map _
  · intro i
    rw [resetItemsFromModel_none, resetItemsFromModel_items, mem_ids_foldl_insertSorted,
      widgetsOf_ids]
    simp

/-- Witness of C3: ids 3, 2, 1 are rendered and the widget is reset to the
scenario items. -/
theorem resetItemsFromModel_ids_witness :
    (scenarioItems.map NotificationItem.getId).Nodup ∧
    ((widgetWith none (datedModel threeItems) (widgetsOf threeItems).reverse).resetItemsFromModel
        (some scenarioItems)).listWidget.items.map SingleNotificationItemWidget.getId =
      [7, 5, 2] ∧
    (∀ i : Int,
      i ∈ ((widgetWith none (datedModel threeItems) (widgetsOf threeItems).reverse).resetItemsFromModel
          (some scenarioItems)).listWidget.items.map SingleNotificationItemWidget.getId ↔
        i ∈ scenarioItems.map NotificationItem.getId) :=
  ⟨by decide, by decide,
    (resetItemsFromModel_ids (widgetWith none (datedModel threeItems) (widgetsOf threeItems).reverse)
      scenarioItems (by decide)).1⟩

/-- C4: after `onModelDiscardItems(items)` the rendered list (keyed by id: no two
widgets share an id) is the prior rendered list without the widgets whose id is
the id of an element of `items`, the others in their prior order; when no
element of `items` has a rendered widget, nothing changes. The handler is a
total function: it raises no error. -/
theorem onModelDiscardItems_removes (w : SubGroupListWidget) (items : List NotificationItem)
    (hnd : (w.listWidget.items.map SingleNotificationItemWidget.getId).Nodup) :
    (w.onModelDiscardItems items).listWidget.items =
      w.listWidget.items.filter
        (fun y => decide (y.getId ∉ items.map NotificationItem.getId)) ∧
    ((∀ item ∈ items, w.listWidget.getItemFromId item.getId = none) →
      w.onModelDiscardItems items = w) := by
  have hmain : (w.onModelDiscardItems items).listWidget.items =
      w.listWidget.items.filter
        (fun y => decide (y.getId ∉ items.map NotificationItem.getId)) :=
    foldl_discard w.listWidget.items hnd items w.listWidget.items (List.Sublist.refl _)
  refine ⟨hmain, ?_⟩
  intro hstale
  have hkeep : w.listWidget.items.filter
      (fun y => decide (y.getId ∉ items.map NotificationItem.getId)) = w.listWidget.items := by
    rw [List.filter_eq_self]
    intro y hy
    simp only [decide_eq_true_eq, List.mem_map, not_exists, not_and]
    intro item hitem hid
    have := hstale item hitem
    simp only [SortedListWidget.getItemFromId, List.find?_eq_none] at this
    exact this y hy (by simpa using hid.symm)
  have hl : (w.onModelDiscardItems items).listWidget = w.listWidget := by
    have h1 := hmain.trans hkeep
    cases hw : (w.onModelDiscardItems items).listWidget with
    | mk its =>
      rw [hw] at h1
      simp only at h1
      rw [h1]
  calc w.onModelDiscardItems items
      = { w with listWidget := (w.onModelDiscardItems items).listWidget } := rfl
    _ = { w with listWidget := w.listWidget } := by rw [hl]
    _ = w := rfl

/-- Witness of C4: ids 3, 2, 1 rendered; discarding the item with id 2 leaves 3
and 1, discarding an item that is not rendered leaves the widget as it is. -/
theorem onModelDiscardItems_removes_witness :
    (((widgetWith none (datedModel threeItems) (widgetsOf threeItems).reverse).onModelDiscardItems
        [itemTwo]).listWidget.items.map SingleNotificationItemWidget.getId = [3, 1]) ∧
    ((widgetWith none (datedModel threeItems) (widgetsOf threeItems).reverse).onModelDiscardItems
        [itemTwo]).listWidget.items =
      (widgetWith none (datedModel threeItems) (widgetsOf threeItems).reverse).listWidget.items.filter
        (fun y => decide (y.getId ∉ [itemTwo].map NotificationItem.getId)) ∧
    (widgetWith none (datedModel threeItems) (widgetsOf threeItems).reverse).onModelDiscardItems
        [itemNine] =
      widgetWith none (datedModel threeItems) (widgetsOf threeItems).reverse :=
  ⟨by decide,
    (onModelDiscardItems_removes
      (widgetWith none (datedModel threeItems) (widgetsOf threeItems).reverse) [itemTwo]
      (by decide)).1,
    (onModelDiscardItems_removes
      (widgetWith none (datedModel threeItems) (widgetsOf threeItems).reverse) [itemNine]
      (by decide)).2 (by decide)⟩

/-! ## The mark-all-read button -/

/-- C5: `hasUnread()` is true exactly when some item of `model.getItems()` is
unread (so it is false for the empty list), and after
`toggleMarkAllReadButton()` the button is visible exactly when `hasUnread()` is
true. In the scenario the button is visible; once the two unread items are read
and `itemUpdate` is delivered it is hidden. -/
theorem hasUnread_toggleMarkAllReadButton (w : SubGroupListWidget) :
    (w.hasUnread = true ↔ ∃ item ∈ w.model.getItems, item.isRead = false) ∧
    ({ w with model := { w.model with items := [] } } : SubGroupListWidget).hasUnread = false ∧
    (w.toggleMarkAllReadButton.markAllReadButton.isVisible = true ↔ w.hasUnread = true) ∧
    (∃ w₁, SubGroupListWidget.create (some freshController) (some (datedModel scenarioItems))
        (some (configMarkAllRead true)) = .ok w₁ ∧
      w₁.markAllReadButton.isVisible = true ∧
      ∃ w₂, ({ w₁ with model := datedModel scenarioItemsRead } : SubGroupListWidget).handle
          .itemUpdate = .ok w₂ ∧
        w₂.markAllReadButton.isVisible = false) := by
  refine ⟨?_, rfl, ?_, ⟨_, rfl, by decide, _, rfl, by decide⟩⟩
  · simp [SubGroupListWidget.hasUnread, List.any_eq_true]
  · simp only [SubGroupListWidget.toggleMarkAllReadButton, UiElement.toggle,
      UiElement.isVisible]
    cases w.hasUnread <;> cases w.markAllReadButton.visible <;> simp

/-- C6, counterexample: for a list model named `20160101` of source `local`, the
click hands `20160101` to the controller, which is not the value the group
reports as its source. -/
theorem onMarkAllReadButtonClick_not_source :
    ∃ w w₁, SubGroupListWidget.create (some freshController) (some (datedModel scenarioItems))
        (some (configMarkAllRead true)) = .ok w ∧
      w.onMarkAllReadButtonClick = .ok w₁ ∧
      w₁.controller = some { markEntireListModelReadCalls := ["20160101"] } ∧
      w.getSource = "local" ∧
      w₁.controller ≠ some (freshController.markEntireListModelRead w.getSource) :=
  ⟨_, _, rfl, rfl, rfl, rfl, by decide⟩

/-- C6, amended: for a widget that has a controller, `onMarkAllReadButtonClick()`
returns normally, adds exactly one request to the controller, whose argument is
`model.getName()` (the value the group reports as its id), and leaves the
model, the rendered list, `showTitle`, `showMarkAllRead`, the title and the
button unchanged. -/
theorem onMarkAllReadButtonClick_calls_controller (w : SubGroupListWidget) (c : Controller)
    (hc : w.controller = some c) :
    ∃ w₁, w.onMarkAllReadButtonClick = .ok w₁ ∧
      w₁.controller = some
        { markEntireListModelReadCalls := c.markEntireListModelReadCalls ++ [w.getId] } ∧
      w.getId = w.model.getName ∧
      w₁.model = w.model ∧ w₁.listWidget = w.listWidget ∧ w₁.showTitle = w.showTitle ∧
      w₁.showMarkAllRead = w.showMarkAllRead ∧ w₁.title = w.title ∧
      w₁.markAllReadButton = w.markAllReadButton := by
  refine ⟨{ w with controller := some (c.markEntireListModelRead w.model.getName) }, ?_, rfl, rfl,
    rfl, rfl, rfl, rfl, rfl, rfl⟩
  simp only [SubGroupListWidget.onMarkAllReadButtonClick, hc]

/-- Witness of the amended C6 on a widget with a fresh controller. -/
theorem onMarkAllReadButtonClick_calls_controller_witness :
    (widgetWith (some freshController) (datedModel scenarioItems) []).controller =
      some freshController ∧
    ∃ w₁, (widgetWith (some freshController) (datedModel scenarioItems)
        []).onMarkAllReadButtonClick = .ok w₁ ∧
      w₁.controller = some { markEntireListModelReadCalls := ["20160101"] } :=
  ⟨rfl,
    match onMarkAllReadButtonClick_calls_controller
      (widgetWith (some freshController) (datedModel scenarioItems) []) freshController rfl with
    | ⟨w₁, h1, h2, _⟩ => ⟨w₁, h1, h2⟩⟩

/-- C7, the code at the failing input: with `showMarkAllRead` false, and with the
configuration omitted, a model that holds unread items gives a visible
mark-all-read button after construction and after `toggleMarkAllReadButton()`. -/
theorem markAllReadButton_visible_when_not_configured :
    (∃ w, SubGroupListWidget.create (some freshController) (some (datedModel scenarioItems))
        (some (configMarkAllRead false)) = .ok w ∧
      w.showMarkAllRead = false ∧ w.markAllReadButton.isVisible = true ∧
      w.toggleMarkAllReadButton.markAllReadButton.isVisible = true) ∧
    (∃ w, SubGroupListWidget.create (some freshController) (some (datedModel scenarioItems))
        none = .ok w ∧
      w.showMarkAllRead = false ∧ w.markAllReadButton.isVisible = true ∧
      w.toggleMarkAllReadButton.markAllReadButton.isVisible = true) :=
  ⟨⟨_, rfl, rfl, by decide, by decide⟩, ⟨_, rfl, rfl, by decide, by decide⟩⟩

/-- C8, the code at the failing input: the model holds ids 1, 2, 3; with the
empty array as argument nothing is rendered, with the argument omitted the
three items of the model are. -/
theorem resetItemsFromModel_empty_array :
    ((widgetWith none (datedModel threeItems) (widgetsOf threeItems).reverse).resetItemsFromModel
        (some [])).listWidget.items = [] ∧
    ((widgetWith none (datedModel threeItems) (widgetsOf threeItems).reverse).resetItemsFromModel
        none).listWidget.items.map SingleNotificationItemWidget.getId = [3, 2, 1] ∧
    (widgetWith none (datedModel threeItems) (widgetsOf threeItems).reverse).model.getItems.map
        NotificationItem.getId = [1, 2, 3] :=
  ⟨by decide, by decide, by decide⟩

/-! ## The title -/

/-- C9: `toggleTitle(s)` with a boolean `s` leaves `showTitle` equal to `s`; doing
it twice gives the state of doing it once; with `s` the current `showTitle` the
state is unchanged, the count of `toggle` invocations on the title included;
with the argument omitted `showTitle` is negated. -/
theorem toggleTitle_idempotent (w : SubGroupListWidget) (s : Bool) :
    (w.toggleTitle (some s)).showTitle = s ∧
    (w.toggleTitle (some s)).toggleTitle (some s) = w.toggleTitle (some s) ∧
    w.toggleTitle (some w.showTitle) = w ∧
    (w.toggleTitle (some w.showTitle)).title.element.toggleCalls =
      w.title.element.toggleCalls ∧
    (w.toggleTitle none).showTitle = !w.showTitle := by
  have h1 : (w.toggleTitle (some s)).showTitle = s := by
    simp only [SubGroupListWidget.toggleTitle]
    split_ifs with h
    · rfl
    · exact not_not.1 h
  have h3 : ∀ v : SubGroupListWidget, v.toggleTitle (some v.showTitle) = v := by
    intro v; simp [SubGroupListWidget.toggleTitle]
  refine ⟨h1, ?_, h3 w, by rw [h3 w], ?_⟩
  · have := h3 (w.toggleTitle (some s))
    rw [h1] at this
    exact this
  · cases hs : w.showTitle <;> simp [SubGroupListWidget.toggleTitle, hs]

/-! ## Construction without a controller -/

/-- C10, counterexample: with `showMarkAllRead` true and no controller the
constructor returns a widget. -/
theorem create_without_controller_returns :
    ∃ w, SubGroupListWidget.create none (some (datedModel scenarioItems))
        (some (configMarkAllRead true)) = .ok w ∧
      w.showMarkAllRead = true ∧ w.controller = none :=
  ⟨_, rfl, rfl, rfl⟩

/-- C10, amended: for every list model, the constructor with `showMarkAllRead`
true and no controller returns a widget that has the flag set and no controller;
the missing controller raises an error only when the mark-all-read button is
clicked. -/
theorem create_without_controller (m : ListModel) (showTitle : Option Bool) :
    ∃ w, SubGroupListWidget.create none (some m)
        (some { showTitle := showTitle, showMarkAllRead := some true }) = .ok w ∧
      w.showMarkAllRead = true ∧ w.controller = none ∧ w.model = m ∧
      ∃ e, w.onMarkAllReadButtonClick = .error e :=
  ⟨_, rfl, rfl, rfl, rfl, _, rfl⟩

end Echo
